import Mathlib

/-!
Shallow embedding of the reading-program CRM pipeline (generate_crm.py and
analyze_low_growth.py) and verification of its key behavioural properties:
school-day calculation, app categorization, per-student test aggregation
(doom-loop detection, HMG resolution, effective-test rates), XP category
percentages, the test-result loader filter, and the systemic-issue
aggregator.

Dates are represented by their day index counted from 2025-01-01 (which was
a Wednesday); both 2025 and 2026 are non-leap years, and with Monday = 0 the
weekday of day n is (n + 2) % 7, matching Python date.weekday(). Machine
floats of the source are modelled as exact rationals, pandas NaN as Option,
and Python round (banker's rounding) as round-half-to-even on rationals.
-/

namespace ReadingCRM

/-- Cumulative day counts at the start of each month in a non-leap year. -/
def cumDays : List ℕ := [0, 31, 59, 90, 120, 151, 181, 212, 243, 273, 304, 334]

/-- Day index of a 2025 calendar date, counted from 2025-01-01 = day 0. -/
def mkDate2025 (m d : ℕ) : ℕ := cumDays.getD (m - 1) 0 + (d - 1)

/-- Day index of a 2026 calendar date, counted from 2025-01-01 = day 0. -/
def mkDate2026 (m d : ℕ) : ℕ := 365 + cumDays.getD (m - 1) 0 + (d - 1)

/-- Weekday of a day index, Monday = 0 as in Python date.weekday(). -/
def weekday (n : ℕ) : ℕ := (n + 2) % 7

/-- Term start (generate_crm.py START_DATE = 2025-08-14). -/
def START_DAY : ℕ := mkDate2025 8 14

/-- Term end (generate_crm.py END_DATE = 2026-01-23). -/
def END_DAY : ℕ := mkDate2026 1 23

/-- generate_crm.py EXPECTED_DAILY_MINUTES. -/
def EXPECTED_DAILY_MINUTES : ℤ := 25

/-- generate_crm.py PASS_THRESHOLD = 89.5. -/
def PASS_THRESHOLD : ℚ := 179 / 2

/-- Round half to even on rationals, as Python round does on exact values. -/
def round_half_even (q : ℚ) : ℤ :=
  if q - ⌊q⌋ < 1 / 2 then ⌊q⌋
  else if 1 / 2 < q - ⌊q⌋ then ⌊q⌋ + 1
  else if ⌊q⌋ % 2 = 0 then ⌊q⌋ else ⌊q⌋ + 1

/-- Python round(x, 1): round to one decimal place, ties to even. -/
def round1 (q : ℚ) : ℚ := (round_half_even (10 * q) : ℚ) / 10

/-- Python int() on a rational: truncation toward zero. -/
def pyInt (q : ℚ) : ℤ := if 0 ≤ q then ⌊q⌋ else ⌈q⌉

namespace GenCRM

/-- generate_crm.py INSTRUCTION_APPS. -/
def INSTRUCTION_APPS : List String := ["MobyMax"]

/-- generate_crm.py PRACTICE_APPS. -/
def PRACTICE_APPS : List String := ["Alpha Read"]

/-- generate_crm.py TESTING_APPS. -/
def TESTING_APPS : List String :=
  ["Mastery Track", "100 for 100", "Alpha Tests", "100x100"]

/-- generate_crm.py EARLY_LIT_APPS. -/
def EARLY_LIT_APPS : List String :=
  ["Anton", "ClearFluency", "Clear Fluency", "Amplify", "Mentava",
   "Literably", "Lalilo", "Lexia Core5", "FastPhonics", "TeachTales",
   "AlphaLiteracy"]

/-- generate_crm.py ADMIN_APPS. -/
def ADMIN_APPS : List String :=
  ["Manual XP Assign", "Manual XP", "Timeback UI", "TimeBack Dash",
   "Acely SAT", "AlphaLearn", "Alpha Timeback", "Timeback Learn"]

/-- generate_crm.py categorize_app: exact membership over the five tables,
with a final else-branch returning Admin/Other. -/
def categorize_app (app_name : String) : String :=
  if app_name ∈ INSTRUCTION_APPS then "Instruction"
  else if app_name ∈ PRACTICE_APPS then "Practice"
  else if app_name ∈ TESTING_APPS then "Testing"
  else if app_name ∈ EARLY_LIT_APPS then "Early Lit"
  else if app_name ∈ ADMIN_APPS then "Admin/Other"
  else "Admin/Other"

/-- The fixed non-school dates built in compute_school_days: the two MAP
testing weeks, Labor Day, the October session break, Thanksgiving week, the
weekday part of the December/January break, and MLK Day. -/
def nonSchool : List ℕ :=
  ((List.range 4).map (fun k => mkDate2025 8 19 + k)) ++
  ((List.range 4).map (fun k => mkDate2025 8 26 + k)) ++
  [mkDate2025 9 1] ++
  ((List.range 5).map (fun k => mkDate2025 10 6 + k)) ++
  ((List.range 5).map (fun k => mkDate2025 11 24 + k)) ++
  (((List.range 12).map (fun k => mkDate2025 12 22 + k)).filter
    (fun d => decide (weekday d < 5))) ++
  [mkDate2026 1 19]

/-- Result record of compute_school_days. -/
structure SchoolDays where
  effectiveDays : ℤ
  expectedMinutes : ℤ
  schoolDayList : List ℕ
deriving DecidableEq

/-- generate_crm.py compute_school_days, with the term bounds as explicit
arguments (the source reads them from the module constants START_DATE and
END_DATE): enumerate weekdays from startD to endD, remove listed non-school
weekdays clamped to the term, then subtract one full day for the two
December half-days; expected minutes = effective days times 25. -/
def compute_school_days (startD endD : ℕ) : SchoolDays :=
  let allDays := ((List.range (endD + 1 - startD)).map (· + startD)).filter
    (fun d => decide (weekday d < 5))
  let nonSchoolWeekdays := nonSchool.filter
    (fun d => decide (weekday d < 5) && decide (startD ≤ d) && decide (d ≤ endD))
  let schoolDays := allDays.filter (fun d => !(nonSchoolWeekdays.contains d))
  let effectiveDays : ℤ := (schoolDays.length : ℤ) - 1
  ⟨effectiveDays, effectiveDays * EXPECTED_DAILY_MINUTES, schoolDays⟩

end GenCRM

namespace ALG

/-- analyze_low_growth.py INSTRUCTION_APPS. -/
def INSTRUCTION_APPS : List String := ["Alpha Read", "MobyMax"]

/-- analyze_low_growth.py TESTING_APPS. -/
def TESTING_APPS : List String :=
  ["Mastery Track", "100 for 100", "Alpha Tests", "100x100"]

/-- analyze_low_growth.py EARLY_LIT_APPS. -/
def EARLY_LIT_APPS : List String :=
  ["Anton", "ClearFluency", "Amplify", "Mentava", "Literably",
   "Lalilo", "Lexia Core5", "FastPhonics", "TeachTales"]

/-- analyze_low_growth.py ADMIN_APPS. -/
def ADMIN_APPS : List String :=
  ["Manual XP Assign", "Timeback UI", "TimeBack Dash", "Manual XP",
   "Acely SAT", "AlphaLearn"]

/-- analyze_low_growth.py categorize_app: exact membership over its four
tables, returning Unknown when no table matches. -/
def categorize_app (app_name : String) : String :=
  if app_name ∈ INSTRUCTION_APPS then "Instruction"
  else if app_name ∈ TESTING_APPS then "Testing"
  else if app_name ∈ EARLY_LIT_APPS then "Early Lit"
  else if app_name ∈ ADMIN_APPS then "Admin/Other"
  else "Unknown"

/-- One row of the test-history table used by analysis 8 of
analyze_low_growth.py: test grade, the Test Attempt number column, and the
Effective Test flag (a passing attempt). -/
structure TestRow where
  grade : ℤ
  attemptNum : ℕ
  effective : Bool
deriving DecidableEq

/-- Distinct grades appearing in the test history (the groupby keys). -/
def grades_tested (l : List TestRow) : List ℤ := (l.map (·.grade)).dedup

/-- Maximum Test Attempt number among rows at one grade, mirroring
groupby of Test Grade followed by max of the attempt column. -/
def max_attempt_at (l : List TestRow) (g : ℤ) : ℕ :=
  ((l.filter (fun t => decide (t.grade = g))).map (·.attemptNum)).foldr max 0

/-- analyze_low_growth.py doom_loop_grades: the grades whose maximum
attempt number is at least 3, with no exclusion for passed grades. -/
def doom_loop_grades (l : List TestRow) : List ℤ :=
  (grades_tested l).filter (fun g => decide (3 ≤ max_attempt_at l g))

end ALG

namespace GenCRM

/-- One test-attempt row as compute_student_metrics sees it: the numeric
score and test grade, either of which may be NaN (None). -/
structure TestRec where
  score : Option ℚ
  grade : Option ℤ
deriving DecidableEq

/-- The pass flag: score at or above PASS_THRESHOLD, and False when the
score is NaN, mirroring the guarded comparison in the test-history loop. -/
def passedB (t : TestRec) : Bool :=
  match t.score with
  | some s => decide (PASS_THRESHOLD ≤ s)
  | none => false

/-- A failing attempt: a present score strictly below PASS_THRESHOLD,
mirroring the boolean mask score < PASS_THRESHOLD (False on NaN). -/
def failB (t : TestRec) : Bool :=
  match t.score with
  | some s => decide (s < PASS_THRESHOLD)
  | none => false

/-- total_tests = len(test_data). -/
def total_tests (ts : List TestRec) : ℕ := ts.length

/-- eff_tests: the number of passing attempts. -/
def eff_tests (ts : List TestRec) : ℕ := (ts.filter passedB).length

/-- Size of the failing-attempt group at one grade: the groupby size of
test_data[score < PASS_THRESHOLD] at key g (NaN grades form no group). -/
def failsAt (ts : List TestRec) (g : ℤ) : ℕ :=
  (ts.filter (fun t => failB t && decide (t.grade = some g))).length

/-- grades_passed: the distinct grades having a passing attempt. -/
def grades_passed (ts : List TestRec) : List ℤ :=
  (ts.filterMap (fun t => if passedB t then t.grade else none)).dedup

/-- The distinct grades of failing attempts (the groupby index of
test_data[score < PASS_THRESHOLD] grouped by test_grade). -/
def fail_grades (ts : List TestRec) : List ℤ :=
  (ts.filterMap (fun t => if failB t then t.grade else none)).dedup

/-- doom_grades: grades with three or more failing attempts, excluding any
grade in grades_passed. -/
def doom_grades (ts : List TestRec) : List ℤ :=
  (fail_grades ts).filter
    (fun g => decide (3 ≤ failsAt ts g) && !((grades_passed ts).contains g))

/-- The pandas max of test_grade over the passing attempts: None when no
passing attempt carries a grade (max over an all-NaN column is NaN). -/
def max_passed_grade (ts : List TestRec) : Option ℤ :=
  ((ts.filter passedB).filterMap (·.grade)).foldr
    (fun g acc => match acc with
      | none => some g
      | some m => some (max g m)) none

/-- The sentinel test of the HMG fallback: pd.isna(hmg) or hmg <= 1. -/
def hmg_low (hmg0 : Option ℚ) : Bool :=
  match hmg0 with
  | none => true
  | some h => decide (h ≤ 1)

/-- The HMG fallback of compute_student_metrics: when the spreadsheet HMG
is NaN or at most 1 and the student has test rows, take the maximum test
grade among passing attempts, adopting it only when the spreadsheet HMG is
NaN or the test-derived value strictly exceeds it. -/
def hmg_resolve (hmg0 : Option ℚ) (ts : List TestRec) : Option ℚ :=
  if hmg_low hmg0 && !ts.isEmpty then
    if !(ts.filter passedB).isEmpty then
      match max_passed_grade ts with
      | none => hmg0
      | some g =>
        match hmg0 with
        | none => some (g : ℚ)
        | some h => if h < (g : ℚ) then some (g : ℚ) else some h
    else hmg0
  else hmg0

/-- eff_rate: percentage of passing attempts, 0 when there are no tests. -/
def eff_rate (ts : List TestRec) : ℚ :=
  if 0 < total_tests ts then
    round1 ((eff_tests ts : ℚ) / (total_tests ts : ℚ) * 100)
  else 0

/-- hmg_plus1_total: attempts whose grade is one above the resolved HMG
(int truncation of the rational HMG plus one); 0 when HMG is NaN. -/
def hmg_plus1_total (ts : List TestRec) (hmg : Option ℚ) : ℕ :=
  match hmg with
  | none => 0
  | some h => (ts.filter (fun t => decide (t.grade = some (pyInt h + 1)))).length

/-- hmg_plus1_passed: passing attempts at the grade one above HMG. -/
def hmg_plus1_passed (ts : List TestRec) (hmg : Option ℚ) : ℕ :=
  match hmg with
  | none => 0
  | some h =>
    (ts.filter (fun t => passedB t && decide (t.grade = some (pyInt h + 1)))).length

/-- hmg_plus1_eff_rate: pass percentage at HMG+1, 0 on zero attempts. -/
def hmg_plus1_eff_rate (ts : List TestRec) (hmg : Option ℚ) : ℚ :=
  if 0 < hmg_plus1_total ts hmg then
    round1 ((hmg_plus1_passed ts hmg : ℚ) / (hmg_plus1_total ts hmg : ℚ) * 100)
  else 0

/-- pct_expected: percent of the expected-minutes target, 0 unless the
target is positive. -/
def pct_expected_calc (totalActive : ℚ) (expectedMinutes : ℤ) : ℚ :=
  if 0 < expectedMinutes then
    round1 (totalActive / (expectedMinutes : ℚ) * 100)
  else 0

/-- daily_avg: average active minutes per effective day, 0 unless the day
count is positive. -/
def daily_avg_calc (totalActive : ℚ) (effectiveDays : ℤ) : ℚ :=
  if 0 < effectiveDays then round1 (totalActive / (effectiveDays : ℚ)) else 0

/-- One daily-metrics row as the per-app aggregation sees it: the app name
and the XP earned. -/
structure DailyRec where
  app : String
  xp : ℚ
deriving DecidableEq

/-- total_xp: the sum of the raw XP Earned column. -/
def total_xp (rows : List DailyRec) : ℚ := (rows.map (·.xp)).sum

/-- The groupby keys of the per-app aggregation: the distinct app names. -/
def app_list (rows : List DailyRec) : List String := (rows.map (·.app)).dedup

/-- The XP sum of one app group. -/
def app_xp (rows : List DailyRec) (a : String) : ℚ :=
  ((rows.filter (fun r => decide (r.app = a))).map (·.xp)).sum

/-- XP accumulated into one category bucket over the app groups. -/
def cat_xp (rows : List DailyRec) (c : String) : ℚ :=
  (((app_list rows).filter (fun a => decide (categorize_app a = c))).map
    (app_xp rows)).sum

/-- instr_xp bucket. -/
def instr_xp (rows : List DailyRec) : ℚ := cat_xp rows "Instruction"

/-- practice_xp bucket. -/
def practice_xp (rows : List DailyRec) : ℚ := cat_xp rows "Practice"

/-- testing_xp bucket. -/
def testing_xp (rows : List DailyRec) : ℚ := cat_xp rows "Testing"

/-- elit_xp bucket. -/
def elit_xp (rows : List DailyRec) : ℚ := cat_xp rows "Early Lit"

/-- admin_xp bucket: the else-branch of the category dispatch, collecting
every app group not categorized as Instruction, Practice, Testing or
Early Lit. -/
def admin_xp (rows : List DailyRec) : ℚ :=
  (((app_list rows).filter (fun a =>
      !(decide (categorize_app a = "Instruction")) &&
      !(decide (categorize_app a = "Practice")) &&
      !(decide (categorize_app a = "Testing")) &&
      !(decide (categorize_app a = "Early Lit")))).map (app_xp rows)).sum

/-- pct_instr: Instruction share of total XP, 0 unless total XP > 0. -/
def pct_instr (rows : List DailyRec) : ℚ :=
  if 0 < total_xp rows then round1 (instr_xp rows / total_xp rows * 100) else 0

/-- pct_practice. -/
def pct_practice (rows : List DailyRec) : ℚ :=
  if 0 < total_xp rows then
    round1 (practice_xp rows / total_xp rows * 100)
  else 0

/-- pct_testing. -/
def pct_testing (rows : List DailyRec) : ℚ :=
  if 0 < total_xp rows then
    round1 (testing_xp rows / total_xp rows * 100)
  else 0

/-- One raw row of the reading-results export as load_reading_results sees
it: the subject column and the parsed submission date (None when the date
failed to parse, mirroring errors=coerce giving NaT). -/
structure RawResult where
  subject : String
  dateOrd : Option ℕ
deriving DecidableEq

/-- load_reading_results filtering: keep subject = Reading, then keep rows
whose submission date compares at or after 2025-08-14 (a NaT date compares
False and is dropped). No upper cutoff is applied. -/
def load_reading_results (rows : List RawResult) : List RawResult :=
  (rows.filter (fun r => decide (r.subject = "Reading"))).filter
    (fun r => match r.dateOrd with
      | some d => decide (START_DAY ≤ d)
      | none => false)

/-- The slice of a StudentMetrics record that detect_systemic_issues
reads: email, issue flags, growth (None when absent), the
doom_loop_above_hmg marker, daily average and percent of expected. -/
structure Student where
  email : String
  issues : List String
  growth : Option ℚ
  doomAboveHmg : Bool
  dailyAvg : ℚ
  pctExpected : ℚ
deriving DecidableEq

/-- issue_counts at one key: the students carrying that flag, in input
order. -/
def students_with (iss : String) (l : List Student) : List Student :=
  l.filter (fun s => decide (iss ∈ s.issues))

/-- One step of building a Python dict: overwrite in place when the key
exists, append otherwise. -/
def dict_insert (m : List (String × Student)) (k : String) (v : Student) :
    List (String × Student) :=
  if (m.map Prod.fst).contains k then
    m.map (fun p => if p.1 = k then (k, v) else p)
  else m ++ [(k, v)]

/-- The dict comprehension keyed by email over a student list. -/
def dict_of (l : List Student) : List (String × Student) :=
  l.foldl (fun m s => dict_insert m s.email s) []

/-- np.nanmean over an already None-stripped list: NaN (None) on empty. -/
def nanmean (l : List ℚ) : Option ℚ :=
  if l.isEmpty then none else some (l.sum / (l.length : ℚ))

/-- The growth values of students whose growth is not None. -/
def growth_vals (l : List Student) : List ℚ := l.filterMap (·.growth)

/-- One ranked systemic-issue entry: key, affected count, average growth,
the deduplicated student list, and the category-specific detail counts. -/
structure IssueEntry where
  key : String
  count : ℕ
  avgGrowth : Option ℚ
  students : List Student
  details : List (String × ℚ)
deriving DecidableEq

/-- The merged Over-Testing and Doom-Loop entry: the union of the two flag
groups deduplicated by email, with the raw over-testing count and the
above-HMG doom-loop count as detail counts; no entry when empty. -/
def testing_entry (l : List Student) : List IssueEntry :=
  let ot := students_with "OVER_TESTING" l
  let dl := students_with "DOOM_LOOP" l
  let dlAbove := dl.filter (·.doomAboveHmg)
  let merged := dict_of (ot ++ dl)
  if merged.isEmpty then []
  else
    [{ key := "OVER_TESTING_DOOM"
       count := merged.length
       avgGrowth := nanmean (growth_vals (merged.map (·.2)))
       students := merged.map (·.2)
       details := [("over_testing", (ot.length : ℚ)),
                   ("doom_loops", (dlAbove.length : ℚ))] }]

/-- The merged Missing Reading Instruction entry: the union of the two
instruction flag groups deduplicated by email, with both sub-condition
counts as details; no entry when empty. -/
def instr_entry (l : List Student) : List IssueEntry :=
  let hs := students_with "NEEDS_HS_INSTRUCTION" l
  let mm := students_with "NEEDS_MM_INSTRUCTION" l
  let merged := dict_of (hs ++ mm)
  if merged.isEmpty then []
  else
    [{ key := "MISSING_READING_INSTRUCTION"
       count := merged.length
       avgGrowth := nanmean (growth_vals (merged.map (·.2)))
       students := merged.map (·.2)
       details := [("needs_hs", (hs.length : ℚ)),
                   ("needs_mm", (mm.length : ℚ))] }]

/-- The Minutes-without-Growth entry with its average-minutes, average
percent-of-expected and negative-growth detail counts; none when empty. -/
def tng_entry (l : List Student) : List IssueEntry :=
  let tng := students_with "TIME_NO_GROWTH" l
  if tng.isEmpty then []
  else
    let avgDaily := round1 ((tng.map (·.dailyAvg)).sum / (tng.length : ℚ))
    let avgPct := round_half_even ((tng.map (·.pctExpected)).sum / (tng.length : ℚ))
    let neg := (tng.filter (fun s =>
      match s.growth with
      | some g => decide (g < 0)
      | none => false)).length
    [{ key := "TIME_NO_GROWTH"
       count := tng.length
       avgGrowth := nanmean (growth_vals tng)
       students := tng
       details := [("avg_daily_minutes", avgDaily),
                   ("avg_pct_expected", (avgPct : ℚ)),
                   ("neg_growth_count", (neg : ℚ))] }]

/-- Stable insertion into a list already sorted by count descending: the
inserted entry goes before the first entry of strictly smaller count and
after earlier ties, as Python stable sort orders them. -/
def insert_desc (a : IssueEntry) : List IssueEntry → List IssueEntry
  | [] => [a]
  | b :: bs => if b.count ≤ a.count then a :: b :: bs else b :: insert_desc a bs

/-- Stable sort by affected count descending (Python list.sort with key
minus count). -/
def sort_desc : List IssueEntry → List IssueEntry
  | [] => []
  | a :: rest => insert_desc a (sort_desc rest)

/-- detect_systemic_issues: build the three candidate entries, sort stably
by affected count descending, and return the first three. No other issue
flag contributes an entry. -/
def detect_systemic_issues (l : List Student) : List IssueEntry :=
  (sort_desc (testing_entry l ++ instr_entry l ++ tng_entry l)).take 3

/-- A failing attempt at grade 5 (score 50). -/
def exFail5 : TestRec := ⟨some 50, some 5⟩

/-- A passing attempt at grade 5 (score 95). -/
def exPass5 : TestRec := ⟨some 95, some 5⟩

/-- Three failing attempts at grade 5. -/
def exFails : List TestRec := [exFail5, exFail5, exFail5]

/-- Three failing attempts at grade 5 followed by a passing attempt. -/
def exMixed : List TestRec := [exFail5, exFail5, exFail5, exPass5]

/-- Passing attempts at grades 4 and 5. -/
def exPass45 : List TestRec := [⟨some 95, some 4⟩, ⟨some 95, some 5⟩]

/-- One passing attempt at grade 7. -/
def exPass7 : List TestRec := [⟨some 95, some 7⟩]

/-- An attempt at grade 5 whose score failed numeric parsing. -/
def exNoScore : TestRec := ⟨none, some 5⟩

/-- A single daily row carrying 100 XP in the early-literacy app Anton. -/
def exElitRows : List DailyRec := [⟨"Anton", 100⟩]

/-- A Reading result row dated 2026-02-02, after the term end. -/
def exLateRow : RawResult := ⟨"Reading", some (mkDate2026 2 2)⟩

/-- A student affected only by LOW_ENGAGEMENT. -/
def mkLowEngagement (e : String) : Student :=
  ⟨e, ["LOW_ENGAGEMENT"], some 1, false, 10, 30⟩

/-- Four low-engagement students and one minutes-without-growth student. -/
def exIssueStudents : List Student :=
  [mkLowEngagement "a@x", mkLowEngagement "b@x", mkLowEngagement "c@x",
   mkLowEngagement "d@x",
   ⟨"e@x", ["TIME_NO_GROWTH"], some 0, false, 30, 120⟩]

/-- A student flagged by both halves of each merged systemic category. -/
def exBothFlags : Student :=
  ⟨"both@x",
   ["OVER_TESTING", "DOOM_LOOP", "NEEDS_HS_INSTRUCTION", "NEEDS_MM_INSTRUCTION"],
   some 1, true, 10, 50⟩

end GenCRM

namespace ALG

/-- Four attempts at grade 5: three failures then a pass. -/
def exLoopRows : List TestRow :=
  [⟨5, 1, false⟩, ⟨5, 2, false⟩, ⟨5, 3, false⟩, ⟨5, 4, true⟩]

end ALG

section Theorems

attribute [local semireducible] Rat.add Rat.mul Rat.inv Rat.sub Rat.ofScientific

open GenCRM

lemma mem_grades_passed {ts : List TestRec} {g : ℤ} :
    g ∈ grades_passed ts ↔ ∃ t ∈ ts, passedB t = true ∧ t.grade = some g := by
  simp only [grades_passed, List.mem_dedup, List.mem_filterMap]
  constructor
  · rintro ⟨t, ht, hf⟩
    by_cases hp : passedB t
    · exact ⟨t, ht, hp, by simpa [hp] using hf⟩
    · simp [hp] at hf
  · rintro ⟨t, ht, hp, hg⟩
    exact ⟨t, ht, by simp [hp, hg]⟩

lemma mem_fail_grades_of_pos {ts : List TestRec} {g : ℤ} (h : 0 < failsAt ts g) :
    g ∈ fail_grades ts := by
  unfold failsAt at h
  obtain ⟨t, ht⟩ := List.exists_mem_of_ne_nil _ (List.length_pos.mp h)
  obtain ⟨hts, hpred⟩ := List.mem_filter.mp ht
  rw [Bool.and_eq_true, decide_eq_true_eq] at hpred
  simp only [fail_grades, List.mem_dedup, List.mem_filterMap]
  exact ⟨t, hts, by simp [hpred.1, hpred.2]⟩

/-- C1 (amended): in compute_student_metrics of generate_crm.py, a grade
carrying at least three failing attempts is reported as a doom-loop grade
precisely when the student has no passing attempt at that grade. -/
theorem doom_loop_iff_no_pass (ts : List TestRec) (g : ℤ)
    (h3 : 3 ≤ failsAt ts g) :
    g ∈ doom_grades ts ↔ ¬ ∃ t ∈ ts, passedB t = true ∧ t.grade = some g := by
  have hfg : g ∈ fail_grades ts :=
    mem_fail_grades_of_pos (lt_of_lt_of_le (by norm_num) h3)
  rw [doom_grades, List.mem_filter]
  constructor
  · rintro ⟨-, hcond⟩ hex
    rw [Bool.and_eq_true, Bool.not_eq_true', ← Bool.not_eq_true] at hcond
    exact hcond.2 (List.elem_iff.mpr (mem_grades_passed.mpr hex))
  · intro hnp
    refine ⟨hfg, ?_⟩
    rw [Bool.and_eq_true, decide_eq_true_eq, Bool.not_eq_true']
    refine ⟨h3, ?_⟩
    rw [← Bool.not_eq_true]
    intro hc
    exact hnp (mem_grades_passed.mp (List.elem_iff.mp hc))

/-- C1 witness: three failures at grade 5 produce the doom-loop flag, and
adding a passing attempt at grade 5 removes it. -/
theorem doom_loop_iff_no_pass_wit :
    (3 ≤ failsAt exFails 5 ∧ 5 ∈ doom_grades exFails) ∧
    (3 ≤ failsAt exMixed 5 ∧ 5 ∉ doom_grades exMixed) :=
  ⟨⟨by decide, (doom_loop_iff_no_pass exFails 5 (by decide)).mpr (by decide)⟩,
   ⟨by decide, fun hmem =>
     ((doom_loop_iff_no_pass exMixed 5 (by decide)).mp hmem) (by decide)⟩⟩

/-- C1 counterexample: doom_loop_grades of analyze_low_growth.py flags
grade 5 for the attempt sequence fail, fail, fail, pass even though the
final attempt at grade 5 is passing. -/
theorem doom_loop_alg_cx :
    ALG.doom_loop_grades ALG.exLoopRows = [5] ∧
    ∃ t ∈ ALG.exLoopRows, t.effective = true ∧ t.grade = 5 := by decide

/-- C2: the resolved HMG keeps a spreadsheet value above 1 unchanged, is
replaced only when the spreadsheet value is missing or at most 1 and then
only by the maximum passing test grade, and the replacement never lowers a
present value. -/
theorem hmg_fallback_resolution (hmg0 : Option ℚ) (ts : List TestRec) :
    (∀ h, hmg0 = some h → 1 < h → hmg_resolve hmg0 ts = some h) ∧
    (hmg_resolve hmg0 ts ≠ hmg0 →
      (hmg0 = none ∨ ∃ h, hmg0 = some h ∧ h ≤ 1) ∧
      ∃ g, max_passed_grade ts = some g ∧ hmg_resolve hmg0 ts = some (g : ℚ)) ∧
    (∀ h h2, hmg0 = some h → hmg_resolve hmg0 ts = some h2 → h ≤ h2) := by
  refine ⟨?_, ?_, ?_⟩
  · intro h hh hlt
    subst hh
    have hlow : hmg_low (some h) = false := by
      simp [hmg_low, not_le.mpr hlt]
    simp [hmg_resolve, hlow]
  · intro hne
    by_cases hcond : (hmg_low hmg0 && !ts.isEmpty) = true
    · by_cases hpt : (!(ts.filter passedB).isEmpty) = true
      · cases hmax : max_passed_grade ts with
        | none => simp [hmg_resolve, hcond, hpt, hmax] at hne
        | some g =>
          cases hmg0 with
          | none =>
            exact ⟨Or.inl rfl, g, rfl, by simp [hmg_resolve, hcond, hpt, hmax]⟩
          | some h =>
            have hle : h ≤ 1 := by
              rw [Bool.and_eq_true] at hcond
              simpa [hmg_low] using hcond.1
            by_cases hlt : h < (g : ℚ)
            · exact ⟨Or.inr ⟨h, rfl, hle⟩, g, rfl,
                by simp [hmg_resolve, hcond, hpt, hmax, hlt]⟩
            · simp [hmg_resolve, hcond, hpt, hmax, hlt] at hne
      · simp [hmg_resolve, hcond, hpt] at hne
    · simp [hmg_resolve, hcond] at hne
  · intro h h2 hh hr
    subst hh
    by_cases hcond : (hmg_low (some h) && !ts.isEmpty) = true
    · by_cases hpt : (!(ts.filter passedB).isEmpty) = true
      · cases hmax : max_passed_grade ts with
        | none =>
          rw [hmg_resolve] at hr
          simp [hcond, hpt, hmax] at hr
          exact le_of_eq hr
        | some g =>
          by_cases hlt : h < (g : ℚ)
          · rw [hmg_resolve] at hr
            simp [hcond, hpt, hmax, hlt] at hr
            exact le_of_lt (hr ▸ hlt)
          · rw [hmg_resolve] at hr
            simp [hcond, hpt, hmax, hlt] at hr
            exact le_of_eq hr
      · rw [hmg_resolve] at hr
        simp [hcond, hpt] at hr
        exact le_of_eq hr
    · rw [hmg_resolve] at hr
      simp [hcond] at hr
      exact le_of_eq hr

/-- C2 witness: spreadsheet HMG 6 with passing attempts at grades 4 and 5
stays 6, and spreadsheet HMG 1 with a passing attempt at grade 7 becomes
7. -/
theorem hmg_fallback_resolution_wit :
    hmg_resolve (some 6) exPass45 = some 6 ∧
    hmg_resolve (some 1) exPass7 = some 7 :=
  ⟨(hmg_fallback_resolution (some 6) exPass45).1 6 rfl (by norm_num),
   by decide⟩

/-- C4 (amended): categorize_app of generate_crm.py sends every name found
in none of its tables to Admin/Other and never returns Unknown. -/
theorem categorize_app_defaults_admin (a : String)
    (h1 : a ∉ INSTRUCTION_APPS) (h2 : a ∉ PRACTICE_APPS)
    (h3 : a ∉ TESTING_APPS) (h4 : a ∉ EARLY_LIT_APPS) (h5 : a ∉ ADMIN_APPS) :
    categorize_app a = "Admin/Other" ∧ ∀ b : String, categorize_app b ≠ "Unknown" := by
  constructor
  · simp [categorize_app, h1, h2, h3, h4, h5]
  · intro b
    unfold categorize_app
    repeat' split
    all_goals decide

/-- C4 witness: the unrecognized app name Zearn is categorized as
Admin/Other by generate_crm.py. -/
theorem categorize_app_defaults_admin_wit :
    categorize_app "Zearn" = "Admin/Other" ∧
    ∀ b : String, categorize_app b ≠ "Unknown" :=
  categorize_app_defaults_admin "Zearn" (by decide) (by decide) (by decide)
    (by decide) (by decide)

/-- C4 counterexample: categorize_app of analyze_low_growth.py returns
Unknown for the app name Zearn, which is in none of its tables. -/
theorem categorize_app_unknown_cx :
    ALG.categorize_app "Zearn" = "Unknown" ∧
    "Zearn" ∉ ALG.INSTRUCTION_APPS ∧ "Zearn" ∉ ALG.TESTING_APPS ∧
    "Zearn" ∉ ALG.EARLY_LIT_APPS ∧ "Zearn" ∉ ALG.ADMIN_APPS := by decide

/-- C5 (amended): when the term start is after the term end, the school-day
calculation returns -1 effective days and -25 expected minutes (the
unconditional half-day subtraction applies to the empty weekday list); it
is a total function, so no error is raised. -/
theorem school_days_empty_term (s e : ℕ) (h : e < s) :
    (compute_school_days s e).effectiveDays = -1 ∧
    (compute_school_days s e).expectedMinutes = -25 := by
  have hz : e + 1 - s = 0 := Nat.sub_eq_zero_of_le h
  constructor <;>
    simp [compute_school_days, hz, EXPECTED_DAILY_MINUTES]

/-- C5 witness: swapping the real term bounds gives -1 effective days and
-25 expected minutes. -/
theorem school_days_empty_term_wit :
    (compute_school_days END_DAY START_DAY).effectiveDays = -1 ∧
    (compute_school_days END_DAY START_DAY).expectedMinutes = -25 :=
  school_days_empty_term END_DAY START_DAY (by decide)

/-- C5 counterexample: with start after end the effective-day count is -1,
not the zero the claim states. -/
theorem school_days_zero_cx :
    START_DAY < END_DAY ∧
    (compute_school_days END_DAY START_DAY).effectiveDays = -1 ∧
    (compute_school_days END_DAY START_DAY).effectiveDays ≠ 0 := by decide

/-- C7 (amended): a test-result row survives load_reading_results exactly
when its subject is Reading and its submission date parsed and lies on or
after the term start; no upper date bound is applied. -/
theorem load_results_mem_iff (rows : List RawResult) (r : RawResult) :
    r ∈ load_reading_results rows ↔
      r ∈ rows ∧ r.subject = "Reading" ∧
      ∃ d, r.dateOrd = some d ∧ START_DAY ≤ d := by
  unfold load_reading_results
  rw [List.mem_filter, List.mem_filter]
  cases hd : r.dateOrd with
  | none => simp [hd]
  | some d => simp [hd, and_assoc]

/-- C7 counterexample: a Reading row dated 2026-02-02, eleven days after
the term end, is kept by load_reading_results rather than dropped. -/
theorem load_results_after_end_cx :
    exLateRow ∈ load_reading_results [exLateRow] ∧
    exLateRow.dateOrd = some (mkDate2026 2 2) ∧
    END_DAY < mkDate2026 2 2 := by decide

lemma sum_map_filter_split {α : Type} (f : α → ℚ) (p : α → Bool) (l : List α) :
    ((l.filter p).map f).sum + ((l.filter (fun x => !p x)).map f).sum
      = (l.map f).sum := by
  induction l with
  | nil => simp
  | cons a l ih =>
    cases hp : p a <;> simp [List.filter_cons, hp] <;> linarith [ih]

lemma app_xp_filter_ne {l : List DailyRec} {a b : String} (hne : b ≠ a) :
    app_xp (l.filter (fun r => !(decide (r.app = a)))) b = app_xp l b := by
  unfold app_xp
  rw [List.filter_filter]
  have hfeq : List.filter (fun r => decide (r.app = b) && !decide (r.app = a)) l
      = List.filter (fun r => decide (r.app = b)) l := by
    apply List.filter_congr
    intro r _
    by_cases h : r.app = b
    · simp [h, hne]
    · simp [h]
  rw [hfeq]

lemma sum_app_groups (ks : List String) (l : List DailyRec)
    (hnd : ks.Nodup) (hall : ∀ r ∈ l, r.app ∈ ks) :
    (ks.map (app_xp l)).sum = total_xp l := by
  induction ks generalizing l with
  | nil =>
    cases l with
    | nil => simp [total_xp]
    | cons r l => exact absurd (hall r (by simp)) (by simp)
  | cons a ks ih =>
    rw [List.map_cons, List.sum_cons]
    have hsplit := sum_map_filter_split (·.xp) (fun r => decide (r.app = a)) l
    have h2 : (ks.map (app_xp l)).sum
        = (ks.map (app_xp (l.filter (fun r => !(decide (r.app = a)))))).sum := by
      apply congrArg
      apply List.map_congr_left
      intro b hb
      have hbne : b ≠ a := by
        rintro rfl
        exact (List.nodup_cons.mp hnd).1 hb
      exact (app_xp_filter_ne hbne).symm
    have hrest : (ks.map (app_xp (l.filter (fun r => !(decide (r.app = a)))))).sum
        = total_xp (l.filter (fun r => !(decide (r.app = a)))) := by
      refine ih _ (List.nodup_cons.mp hnd).2 ?_
      intro r hr
      obtain ⟨hrl, hrp⟩ := List.mem_filter.mp hr
      rcases List.mem_cons.mp (hall r hrl) with h | h
      · simp [h] at hrp
      · exact h
    rw [h2, hrest]
    unfold total_xp app_xp
    linarith

lemma sum_five_cats (ks : List String) (f : String → ℚ) :
    ((ks.filter (fun a => decide (categorize_app a = "Instruction"))).map f).sum +
    ((ks.filter (fun a => decide (categorize_app a = "Practice"))).map f).sum +
    ((ks.filter (fun a => decide (categorize_app a = "Testing"))).map f).sum +
    ((ks.filter (fun a => decide (categorize_app a = "Early Lit"))).map f).sum +
    ((ks.filter (fun a =>
        !(decide (categorize_app a = "Instruction")) &&
        !(decide (categorize_app a = "Practice")) &&
        !(decide (categorize_app a = "Testing")) &&
        !(decide (categorize_app a = "Early Lit")))).map f).sum
      = (ks.map f).sum := by
  induction ks with
  | nil => simp
  | cons a ks ih =>
    by_cases h1 : categorize_app a = "Instruction"
    · simp only [List.filter_cons, h1]
      simp
      linarith [ih]
    · by_cases h2 : categorize_app a = "Practice"
      · simp only [List.filter_cons, h2]
        simp [h1]
        linarith [ih]
      · by_cases h3 : categorize_app a = "Testing"
        · simp only [List.filter_cons, h3]
          simp [h1, h2]
          linarith [ih]
        · by_cases h4 : categorize_app a = "Early Lit"
          · simp only [List.filter_cons, h4]
            simp [h1, h2, h3]
            linarith [ih]
          · simp only [List.filter_cons]
            simp [h1, h2, h3, h4]
            linarith [ih]

lemma xp_buckets_total (rows : List DailyRec) :
    instr_xp rows + practice_xp rows + testing_xp rows + elit_xp rows +
      admin_xp rows = total_xp rows := by
  have h5 := sum_five_cats (app_list rows) (app_xp rows)
  have hg : ((app_list rows).map (app_xp rows)).sum = total_xp rows := by
    refine sum_app_groups (app_list rows) rows (List.nodup_dedup _) ?_
    intro r hr
    unfold app_list
    rw [List.mem_dedup]
    exact List.mem_map_of_mem _ hr
  unfold instr_xp practice_xp testing_xp elit_xp admin_xp cat_xp
  linarith

lemma round_half_even_abs_le (q : ℚ) : |(round_half_even q : ℚ) - q| ≤ 1 / 2 := by
  have hfl : (⌊q⌋ : ℚ) ≤ q := Int.floor_le q
  have hlt : q < ⌊q⌋ + 1 := Int.lt_floor_add_one q
  unfold round_half_even
  split
  · next h => rw [abs_le]; constructor <;> linarith
  · next h =>
    push_neg at h
    split
    · next h2 => rw [abs_le]; push_cast; constructor <;> linarith
    · next h2 =>
      push_neg at h2
      split <;> (rw [abs_le]; push_cast; constructor <;> linarith)

lemma round1_abs_le (q : ℚ) : |round1 q - q| ≤ 1 / 20 := by
  have h := round_half_even_abs_le (10 * q)
  unfold round1
  have heq : (round_half_even (10 * q) : ℚ) / 10 - q
      = ((round_half_even (10 * q) : ℚ) - 10 * q) / 10 := by ring
  rw [heq, abs_div]
  rw [abs_of_pos (by norm_num : (0 : ℚ) < 10)]
  linarith

/-- C3 (amended): the five XP category buckets sum to the total XP; all
three percentage fields are 0 when total XP is 0; and the three percentage
fields sum to 100 up to rounding only under the extra hypothesis that the
student has no Early Lit and no Admin/Other XP, the two categories for
which no percentage field is computed. -/
theorem xp_pct_fields (rows : List DailyRec) :
    (instr_xp rows + practice_xp rows + testing_xp rows + elit_xp rows +
       admin_xp rows = total_xp rows) ∧
    (total_xp rows = 0 →
       pct_instr rows = 0 ∧ pct_practice rows = 0 ∧ pct_testing rows = 0) ∧
    (0 < total_xp rows → elit_xp rows = 0 → admin_xp rows = 0 →
       |pct_instr rows + pct_practice rows + pct_testing rows - 100| ≤ 3 / 20) := by
  refine ⟨xp_buckets_total rows, ?_, ?_⟩
  · intro h
    simp [pct_instr, pct_practice, pct_testing, h]
  · intro hpos he ha
    have hsum : instr_xp rows + practice_xp rows + testing_xp rows
        = total_xp rows := by
      have := xp_buckets_total rows
      linarith
    have hne : total_xp rows ≠ 0 := ne_of_gt hpos
    have hpre : instr_xp rows / total_xp rows * 100 +
        practice_xp rows / total_xp rows * 100 +
        testing_xp rows / total_xp rows * 100 = 100 := by
      field_simp
      linarith
    have e1 := round1_abs_le (instr_xp rows / total_xp rows * 100)
    have e2 := round1_abs_le (practice_xp rows / total_xp rows * 100)
    have e3 := round1_abs_le (testing_xp rows / total_xp rows * 100)
    rw [pct_instr, pct_practice, pct_testing, if_pos hpos, if_pos hpos,
      if_pos hpos]
    rw [abs_le] at e1 e2 e3 ⊢
    constructor <;> linarith

/-- C3 witness: on an empty activity list all percentages are 0, and on a
single 100-XP MobyMax row the three percentages sum to 100 up to
rounding. -/
theorem xp_pct_fields_wit :
    (pct_instr [] = 0 ∧ pct_practice [] = 0 ∧ pct_testing [] = 0) ∧
    |pct_instr [⟨"MobyMax", 100⟩] + pct_practice [⟨"MobyMax", 100⟩] +
      pct_testing [⟨"MobyMax", 100⟩] - 100| ≤ 3 / 20 :=
  ⟨(xp_pct_fields []).2.1 (by decide),
   (xp_pct_fields [⟨"MobyMax", 100⟩]).2.2 (by decide) (by decide) (by decide)⟩

/-- C3 counterexample: a student whose only XP is 100 points in the
early-literacy app Anton has positive total XP while the three computed
percentage fields sum to 0, not 100. -/
theorem xp_pct_sum_cx :
    total_xp exElitRows = 100 ∧
    pct_instr exElitRows + pct_practice exElitRows + pct_testing exElitRows
      = 0 := by decide

/-- C6: on four students flagged only LOW_ENGAGEMENT and one flagged only
TIME_NO_GROWTH, detect_systemic_issues returns the single TIME_NO_GROWTH
entry of count 1 and no entry for the four-student LOW_ENGAGEMENT issue,
because only the two merged categories and TIME_NO_GROWTH are ever
candidates for the ranking. -/
theorem systemic_top3_restricted :
    (detect_systemic_issues exIssueStudents).map (·.key) = ["TIME_NO_GROWTH"] ∧
    (students_with "LOW_ENGAGEMENT" exIssueStudents).length = 4 ∧
    ∀ en ∈ detect_systemic_issues exIssueStudents, en.count = 1 := by decide

/-- C8: every percentage field guards its division: percent-of-expected is
0 at zero expected minutes, daily average is 0 at zero effective days, the
XP percentages are 0 at zero total XP, and the overall and HMG+1 effective
test rates are 0 at zero attempt counts. -/
theorem pct_zero_guards (ta : ℚ) (em ed : ℤ) (rows : List DailyRec)
    (ts : List TestRec) (hmg : Option ℚ) :
    (em = 0 → pct_expected_calc ta em = 0) ∧
    (ed = 0 → daily_avg_calc ta ed = 0) ∧
    (total_xp rows = 0 →
       pct_instr rows = 0 ∧ pct_practice rows = 0 ∧ pct_testing rows = 0) ∧
    (total_tests ts = 0 → eff_rate ts = 0) ∧
    (hmg_plus1_total ts hmg = 0 → hmg_plus1_eff_rate ts hmg = 0) := by
  refine ⟨?_, ?_, ?_, ?_, ?_⟩
  · intro h
    simp [pct_expected_calc, h]
  · intro h
    simp [daily_avg_calc, h]
  · intro h
    simp [pct_instr, pct_practice, pct_testing, h]
  · intro h
    simp [eff_rate, h]
  · intro h
    simp [hmg_plus1_eff_rate, h]

/-- C8 witness: the zero-denominator cases all evaluate to 0. -/
theorem pct_zero_guards_wit :
    pct_expected_calc 7 0 = 0 ∧ daily_avg_calc 7 0 = 0 ∧
    (pct_instr [] = 0 ∧ pct_practice [] = 0 ∧ pct_testing [] = 0) ∧
    eff_rate [] = 0 ∧ hmg_plus1_eff_rate [] none = 0 :=
  ⟨(pct_zero_guards 7 0 0 [] [] none).1 rfl,
   (pct_zero_guards 7 0 0 [] [] none).2.1 rfl,
   (pct_zero_guards 7 0 0 [] [] none).2.2.1 (by decide),
   (pct_zero_guards 7 0 0 [] [] none).2.2.2.1 rfl,
   (pct_zero_guards 7 0 0 [] [] none).2.2.2.2 rfl⟩

/-- C10: appending an attempt with a missing score adds one to the total
test count, leaves the passing count unchanged, changes no per-grade
failure count, leaves the doom-loop grades unchanged, contributes no grade
to the passing maximum, and leaves the resolved HMG unchanged. -/
theorem unscored_attempt_effects (ts : List TestRec) (t : TestRec)
    (hmg0 : Option ℚ) (h : t.score = none) :
    total_tests (ts ++ [t]) = total_tests ts + 1 ∧
    eff_tests (ts ++ [t]) = eff_tests ts ∧
    (∀ g, failsAt (ts ++ [t]) g = failsAt ts g) ∧
    doom_grades (ts ++ [t]) = doom_grades ts ∧
    max_passed_grade (ts ++ [t]) = max_passed_grade ts ∧
    hmg_resolve hmg0 (ts ++ [t]) = hmg_resolve hmg0 ts := by
  have hp : passedB t = false := by simp [passedB, h]
  have hf : failB t = false := by simp [failB, h]
  have hfilp : (ts ++ [t]).filter passedB = ts.filter passedB := by
    rw [List.filter_append]
    simp [hp]
  have hfail : ∀ g, failsAt (ts ++ [t]) g = failsAt ts g := by
    intro g
    unfold failsAt
    rw [List.filter_append]
    simp [hf]
  have hgp : grades_passed (ts ++ [t]) = grades_passed ts := by
    unfold grades_passed
    rw [List.filterMap_append]
    simp [hp]
  have hfg : fail_grades (ts ++ [t]) = fail_grades ts := by
    unfold fail_grades
    rw [List.filterMap_append]
    simp [hf]
  have hmp : max_passed_grade (ts ++ [t]) = max_passed_grade ts := by
    unfold max_passed_grade
    rw [hfilp]
  refine ⟨by simp [total_tests], by unfold eff_tests; rw [hfilp], hfail, ?_,
    hmp, ?_⟩
  · unfold doom_grades
    rw [hfg, hgp]
    apply List.filter_congr
    intro g _
    rw [hfail g]
  · unfold hmg_resolve
    rw [hfilp, hmp]
    by_cases hts : ts.isEmpty
    · have hnil : ts = [] := by
        cases ts
        · rfl
        · simp at hts
      subst hnil
      cases hb : hmg_low hmg0 <;> simp [hb]
    · have h1 : (ts ++ [t]).isEmpty = false := by simp
      have h2 : ts.isEmpty = false := by
        cases ts
        · simp at hts
        · rfl
      rw [h1, h2]

/-- C10 witness: appending a score-less attempt to three failures at grade
5 raises the total count to 4 and keeps the passing count at 0. -/
theorem unscored_attempt_effects_wit :
    exNoScore.score = none ∧
    total_tests (exFails ++ [exNoScore]) = total_tests exFails + 1 ∧
    eff_tests (exFails ++ [exNoScore]) = eff_tests exFails ∧
    doom_grades (exFails ++ [exNoScore]) = doom_grades exFails :=
  ⟨rfl, (unscored_attempt_effects exFails exNoScore (some 1) rfl).1,
   (unscored_attempt_effects exFails exNoScore (some 1) rfl).2.1,
   (unscored_attempt_effects exFails exNoScore (some 1) rfl).2.2.2.1⟩

lemma dict_insert_keys (m : List (String × Student)) (k : String) (v : Student) :
    (dict_insert m k v).map Prod.fst =
      if (m.map Prod.fst).contains k then m.map Prod.fst
      else m.map Prod.fst ++ [k] := by
  unfold dict_insert
  split
  · next hc =>
    rw [List.map_map]
    apply List.map_congr_left
    intro p _
    by_cases hpk : p.1 = k
    · simp [hpk]
    · simp [hpk]
  · next hc =>
    simp

lemma dict_insert_keys_nodup {m : List (String × Student)} {k : String}
    {v : Student} (h : (m.map Prod.fst).Nodup) :
    ((dict_insert m k v).map Prod.fst).Nodup := by
  rw [dict_insert_keys]
  split
  · exact h
  · next hc =>
    rw [List.nodup_append]
    refine ⟨h, List.nodup_singleton k, ?_⟩
    intro x hx hxk
    rw [List.mem_singleton] at hxk
    subst hxk
    exact hc (List.elem_iff.mpr hx)

lemma dict_insert_keys_mem {m : List (String × Student)} {k a : String}
    {v : Student} :
    a ∈ (dict_insert m k v).map Prod.fst ↔ a ∈ m.map Prod.fst ∨ a = k := by
  rw [dict_insert_keys]
  split
  · next hc =>
    constructor
    · exact Or.inl
    · rintro (h | rfl)
      · exact h
      · exact List.elem_iff.mp hc
  · next hc =>
    simp [List.mem_append]

lemma dict_loop_keys_nodup (l : List Student) :
    ∀ m : List (String × Student), (m.map Prod.fst).Nodup →
      ((l.foldl (fun m s => dict_insert m s.email s) m).map Prod.fst).Nodup := by
  induction l with
  | nil =>
    intro m h
    simpa using h
  | cons s l ih =>
    intro m h
    rw [List.foldl_cons]
    exact ih _ (dict_insert_keys_nodup h)

lemma dict_loop_keys_mem (l : List Student) :
    ∀ (m : List (String × Student)) (a : String),
      a ∈ (l.foldl (fun m s => dict_insert m s.email s) m).map Prod.fst ↔
        a ∈ m.map Prod.fst ∨ a ∈ l.map (·.email) := by
  induction l with
  | nil =>
    intro m a
    simp
  | cons s l ih =>
    intro m a
    rw [List.foldl_cons, ih, dict_insert_keys_mem]
    simp only [List.map_cons, List.mem_cons]
    tauto

lemma dict_insert_snd_email {m : List (String × Student)} {k : String}
    {v : Student} (hm : ∀ p ∈ m, (p.2).email = p.1) (hv : v.email = k) :
    ∀ p ∈ dict_insert m k v, (p.2).email = p.1 := by
  intro p hp
  unfold dict_insert at hp
  split at hp
  · obtain ⟨q, hq, hqe⟩ := List.mem_map.mp hp
    by_cases hqk : q.1 = k
    · rw [if_pos hqk] at hqe
      rw [← hqe]
      exact hv
    · rw [if_neg hqk] at hqe
      rw [← hqe]
      exact hm q hq
  · rcases List.mem_append.mp hp with hl | hr
    · exact hm p hl
    · rw [List.mem_singleton] at hr
      subst hr
      exact hv

lemma dict_of_snd_email (l : List Student) :
    ∀ p ∈ dict_of l, (p.2).email = p.1 := by
  unfold dict_of
  suffices hgen : ∀ m, (∀ p ∈ m, (p.2).email = p.1) →
      ∀ p ∈ l.foldl (fun m s => dict_insert m s.email s) m, (p.2).email = p.1 by
    exact hgen [] (by simp)
  induction l with
  | nil =>
    intro m hm
    simpa using hm
  | cons s l ih =>
    intro m hm
    rw [List.foldl_cons]
    exact ih _ (dict_insert_snd_email hm rfl)

lemma dict_of_email_count (l : List Student) (e : String)
    (he : e ∈ l.map (·.email)) :
    List.count e (((dict_of l).map (·.2)).map (·.email)) = 1 := by
  have hmapeq : ((dict_of l).map (·.2)).map (·.email)
      = (dict_of l).map Prod.fst := by
    rw [List.map_map]
    exact List.map_congr_left (fun p hp => dict_of_snd_email l p hp)
  rw [hmapeq]
  have hnd : ((dict_of l).map Prod.fst).Nodup := by
    unfold dict_of
    exact dict_loop_keys_nodup l [] (by simp)
  have hmem : e ∈ (dict_of l).map Prod.fst := by
    unfold dict_of
    exact (dict_loop_keys_mem l [] e).mpr (Or.inr he)
  exact List.count_eq_one_of_mem hnd hmem

lemma merged_entry_core (l1 l2 : List Student) (s : Student) (hs : s ∈ l1) :
    (dict_of (l1 ++ l2)).isEmpty = false ∧
    List.count s.email (((dict_of (l1 ++ l2)).map (·.2)).map (·.email)) = 1 := by
  have he : s.email ∈ (l1 ++ l2).map (·.email) :=
    List.mem_map_of_mem _ (List.mem_append_left _ hs)
  constructor
  · have hmem : s.email ∈ (dict_of (l1 ++ l2)).map Prod.fst := by
      unfold dict_of
      exact (dict_loop_keys_mem _ [] _).mpr (Or.inr he)
    cases hdict : dict_of (l1 ++ l2) with
    | nil =>
      rw [hdict] at hmem
      simp at hmem
    | cons p rest => rfl
  · exact dict_of_email_count _ _ he

/-- C9: in each merged systemic category built by detect_systemic_issues, a
student carrying both merged sub-flags contributes one key to the
email-keyed dict, so the affected count equals the student-list length,
the student email occurs exactly once in the student list, and the two
sub-condition counts are still reported separately in the detail pairs. -/
theorem merged_issue_dedup (l : List Student) (s : Student) (hmem : s ∈ l) :
    ("OVER_TESTING" ∈ s.issues → "DOOM_LOOP" ∈ s.issues →
      ∃ en, testing_entry l = [en] ∧ en.count = en.students.length ∧
        List.count s.email (en.students.map (·.email)) = 1 ∧
        en.details = [("over_testing",
            ((students_with "OVER_TESTING" l).length : ℚ)),
          ("doom_loops",
            (((students_with "DOOM_LOOP" l).filter (·.doomAboveHmg)).length : ℚ))]) ∧
    ("NEEDS_HS_INSTRUCTION" ∈ s.issues → "NEEDS_MM_INSTRUCTION" ∈ s.issues →
      ∃ en, instr_entry l = [en] ∧ en.count = en.students.length ∧
        List.count s.email (en.students.map (·.email)) = 1 ∧
        en.details = [("needs_hs",
            ((students_with "NEEDS_HS_INSTRUCTION" l).length : ℚ)),
          ("needs_mm",
            ((students_with "NEEDS_MM_INSTRUCTION" l).length : ℚ))]) := by
  constructor
  · intro h1 h2
    have hs1 : s ∈ students_with "OVER_TESTING" l :=
      List.mem_filter.mpr ⟨hmem, by simp [h1]⟩
    obtain ⟨hne, hcount⟩ := merged_entry_core (students_with "OVER_TESTING" l)
      (students_with "DOOM_LOOP" l) s hs1
    refine ⟨⟨"OVER_TESTING_DOOM",
      (dict_of (students_with "OVER_TESTING" l ++
        students_with "DOOM_LOOP" l)).length,
      nanmean (growth_vals ((dict_of (students_with "OVER_TESTING" l ++
        students_with "DOOM_LOOP" l)).map (·.2))),
      (dict_of (students_with "OVER_TESTING" l ++
        students_with "DOOM_LOOP" l)).map (·.2),
      [("over_testing", ((students_with "OVER_TESTING" l).length : ℚ)),
       ("doom_loops", (((students_with "DOOM_LOOP" l).filter
         (·.doomAboveHmg)).length : ℚ))]⟩, ?_, by simp, hcount, rfl⟩
    simp only [testing_entry]
    rw [if_neg (by simp [hne])]
  · intro h1 h2
    have hs1 : s ∈ students_with "NEEDS_HS_INSTRUCTION" l :=
      List.mem_filter.mpr ⟨hmem, by simp [h1]⟩
    obtain ⟨hne, hcount⟩ := merged_entry_core
      (students_with "NEEDS_HS_INSTRUCTION" l)
      (students_with "NEEDS_MM_INSTRUCTION" l) s hs1
    refine ⟨⟨"MISSING_READING_INSTRUCTION",
      (dict_of (students_with "NEEDS_HS_INSTRUCTION" l ++
        students_with "NEEDS_MM_INSTRUCTION" l)).length,
      nanmean (growth_vals ((dict_of (students_with "NEEDS_HS_INSTRUCTION" l ++
        students_with "NEEDS_MM_INSTRUCTION" l)).map (·.2))),
      (dict_of (students_with "NEEDS_HS_INSTRUCTION" l ++
        students_with "NEEDS_MM_INSTRUCTION" l)).map (·.2),
      [("needs_hs", ((students_with "NEEDS_HS_INSTRUCTION" l).length : ℚ)),
       ("needs_mm", ((students_with "NEEDS_MM_INSTRUCTION" l).length : ℚ))]⟩,
      ?_, by simp, hcount, rfl⟩
    simp only [instr_entry]
    rw [if_neg (by simp [hne])]

/-- C9 witness: a student with both testing flags and both instruction
flags appears once in each merged entry of a one-student cohort. -/
theorem merged_issue_dedup_wit :
    (∃ en, testing_entry [exBothFlags] = [en] ∧
      en.count = en.students.length ∧
      List.count exBothFlags.email (en.students.map (·.email)) = 1 ∧
      en.details = [("over_testing",
          ((students_with "OVER_TESTING" [exBothFlags]).length : ℚ)),
        ("doom_loops",
          (((students_with "DOOM_LOOP" [exBothFlags]).filter
            (·.doomAboveHmg)).length : ℚ))]) :=
  (merged_issue_dedup [exBothFlags] exBothFlags (by simp)).1 (by decide)
    (by decide)

end Theorems

end ReadingCRM
